import Mathlib

/-!
Verification development for the PronunAnalyzer frontend.

The definitions below are shallow embeddings of the JavaScript sources:
the constants module (`src/constants`), the transcription and
pronunciation-analysis hooks (`useTranscription.js`,
`usePronunciationAnalysis.js`), the audio service and utilities
(`audioService`, `utils`), the API service (`apiService.js`) and the
chatbot service (`chatbotService.js`).  JavaScript objects with string
values are embedded as association lists so that property access on a
missing key yields `undefined`, exactly as in the language; asynchronous
results are embedded as `Except` values; React state is embedded as
explicit record passing.
-/

/-- A JavaScript value as far as the embedded code needs it: either a
string or `undefined` (the result of reading an absent property). -/
inductive JSValue where
  | undefined
  | str (s : String)
deriving DecidableEq, Repr

/-- JavaScript property access on an object embedded as an association
list: a present key yields its string value, an absent key yields
`undefined`. -/
def jsGet (obj : List (String × String)) (key : String) : JSValue :=
  match obj.find? (fun p => p.1 == key) with
  | some p => JSValue.str p.2
  | none => JSValue.undefined

/-- JavaScript strict equality `s === v` between a string and a value
that may be `undefined`: comparison with `undefined` is `false`. -/
def jsStrEq (s : String) (v : JSValue) : Bool :=
  match v with
  | JSValue.str t => s == t
  | JSValue.undefined => false

/-- JavaScript `x || fallback` where `x` is an optional string field:
an absent field (`undefined`) and the empty string are falsy and yield
the fallback, any other string is returned as is. -/
def jsFieldOr (v : Option String) (fallback : JSValue) : JSValue :=
  match v with
  | some s => if s = "" then fallback else JSValue.str s
  | none => fallback

/-- Collapse a `JSValue` into the optional string actually stored in
React state: `undefined` behaves as an unset (falsy) error value. -/
def jsToOption : JSValue → Option String
  | JSValue.undefined => none
  | JSValue.str s => some s

/-- The `STATUS_TYPES` object of the constants module, verbatim: its
keys are IDLE, LOADING, SUCCESS, ERROR, PROCESSING, COMPLETED and
PENDING.  It defines neither a QUEUED nor a FAILED key. -/
def STATUS_TYPES : List (String × String) :=
  [("IDLE", "idle"),
   ("LOADING", "loading"),
   ("SUCCESS", "success"),
   ("ERROR", "error"),
   ("PROCESSING", "processing"),
   ("COMPLETED", "completed"),
   ("PENDING", "pending")]

/-- The `ERROR_MESSAGES` object of the constants module, verbatim. -/
def ERROR_MESSAGES : List (String × String) :=
  [("MIC_ACCESS_DENIED", "Microphone access denied. Please allow microphone access."),
   ("MIC_NOT_FOUND", "No microphone found. Please connect a microphone."),
   ("RECORDING_FAILED", "Recording failed. Please try again."),
   ("TRANSCRIPTION_FAILED", "Transcription failed. Please try again."),
   ("PRONUNCIATION_FAILED", "Pronunciation analysis failed. Please try again."),
   ("FILE_TOO_LARGE", "File is too large. Please upload a smaller file."),
   ("INVALID_FILE_TYPE", "Invalid file type. Please upload an audio file."),
   ("NETWORK_ERROR", "Network error. Please check your connection."),
   ("UPLOAD_FAILED", "File upload failed. Please try again."),
   ("PLAYBACK_FAILED", "Audio playback failed."),
   ("COPY_FAILED", "Failed to copy text to clipboard."),
   ("DOWNLOAD_FAILED", "Download failed. Please try again."),
   ("GENERIC_ERROR", "An unexpected error occurred. Please try again.")]

/-- The `DEFAULT_VALUES` object of the constants module. -/
structure DefaultValues where
  language : String
  audioTimeout : Nat
  pollingInterval : Nat
  maxRetries : Nat
  audioVolume : ℚ
deriving DecidableEq, Repr

/-- `DEFAULT_VALUES` from the constants module, verbatim: the polling
interval is 1000 milliseconds. -/
def DEFAULT_VALUES : DefaultValues :=
  { language := "en"
    audioTimeout := 60000
    pollingInterval := 1000
    maxRetries := 30
    audioVolume := 4/5 }

/-- The effective delay passed to `setTimeout` when the poller
reschedules itself: `options.pollingInterval || DEFAULT_VALUES.pollingInterval`
(an absent option and the falsy value 0 both select the default). -/
def effectivePollingInterval (optionsPollingInterval : Option Nat) : Nat :=
  match optionsPollingInterval with
  | some n => if n = 0 then DEFAULT_VALUES.pollingInterval else n
  | none => DEFAULT_VALUES.pollingInterval

/-- The body of a `GET /status/job_id` (or pronunciation-status)
response as the hooks read it: a status string plus optional progress,
transcript, analysis and error fields.  An absent field is `none`
(JavaScript `undefined`). -/
structure StatusResponse where
  status : String
  progress : Option Nat
  transcript : Option String
  analysis : Option String
  error : Option String
deriving DecidableEq, Repr

/-- The React state held by `useTranscription`.  `pollTimer` records
whether a `setTimeout` continuation for the next poll is pending
(`pollingRef` holding a live timer). -/
structure TranscriptionState where
  jobId : Option String
  status : Option String
  progress : Nat
  transcript : String
  isProcessing : Bool
  error : Option String
  pollTimer : Bool
deriving DecidableEq, Repr

/-- The initial hook state: everything unset. -/
def initTranscriptionState : TranscriptionState :=
  { jobId := none
    status := none
    progress := 0
    transcript := ""
    isProcessing := false
    error := none
    pollTimer := false }

/-- Embedding of the response handler of `pollStatus` in
`useTranscription.js`.  An `Except.error` input is the catch branch
(transport failure or `response.error`); an `Except.ok` input is a
decoded status body.  The handler sets status and progress
unconditionally, merges a truthy transcript, then branches by strict
equality against `STATUS_TYPES.COMPLETED`, `STATUS_TYPES.FAILED`,
`STATUS_TYPES.PROCESSING` and `STATUS_TYPES.QUEUED`; only the
continue branch schedules another poll. -/
def pollStatus (s : TranscriptionState) (resp : Except String StatusResponse) :
    TranscriptionState :=
  match resp with
  | Except.error msg =>
      { s with isProcessing := false
               error := jsToOption (jsFieldOr (some msg) (jsGet ERROR_MESSAGES "STATUS_CHECK_FAILED"))
               pollTimer := false }
  | Except.ok r =>
      let s := { s with status := some r.status, progress := r.progress.getD 0 }
      let s :=
        match r.transcript with
        | some t => if t = "" then s else { s with transcript := t }
        | none => s
      if jsStrEq r.status (jsGet STATUS_TYPES "COMPLETED") then
        { s with isProcessing := false, pollTimer := false }
      else if jsStrEq r.status (jsGet STATUS_TYPES "FAILED") then
        { s with isProcessing := false
                 error := jsToOption (jsFieldOr r.error (jsGet ERROR_MESSAGES "TRANSCRIPTION_FAILED"))
                 pollTimer := false }
      else if jsStrEq r.status (jsGet STATUS_TYPES "PROCESSING")
              || jsStrEq r.status (jsGet STATUS_TYPES "QUEUED") then
        { s with pollTimer := true }
      else
        { s with pollTimer := false }

/-- Embedding of `cancelTranscription`: clears the pending timer,
aborts the controller, and resets `isProcessing`, `status` and
`progress`; `jobId`, `transcript` and `error` are untouched. -/
def cancelTranscription (s : TranscriptionState) : TranscriptionState :=
  { s with pollTimer := false
           isProcessing := false
           status := none
           progress := 0 }

/-- Embedding of `startTranscription` past the audio-file guard: the
state reset, then the submit round-trip.  `Except.ok jobId` is a
successful acknowledgment; afterwards `pollStatus(newJobId)` is
invoked, whose first await suspends before any state change, so the
returned record is the state visible immediately after the submit
response and before any poll response is applied.  The `Bool` is the
JavaScript return value. -/
def startTranscription (s : TranscriptionState) (submit : Except String String) :
    TranscriptionState × Bool :=
  let s := { s with jobId := none
                    status := none
                    progress := 0
                    transcript := ""
                    error := none
                    isProcessing := true
                    pollTimer := false }
  match submit with
  | Except.ok jobId => ({ s with jobId := some jobId }, true)
  | Except.error msg =>
      ({ s with isProcessing := false
                error := jsToOption (jsFieldOr (some msg) (jsGet ERROR_MESSAGES "UPLOAD_FAILED")) },
       false)

/-- The React state held by `usePronunciationAnalysis`; the analysis
payload is opaque to the control logic and embedded as a string. -/
structure PronunciationState where
  jobId : Option String
  status : Option String
  analysis : Option String
  isAnalyzing : Bool
  error : Option String
  pollTimer : Bool
deriving DecidableEq, Repr

/-- The initial pronunciation hook state: everything unset. -/
def initPronunciationState : PronunciationState :=
  { jobId := none
    status := none
    analysis := none
    isAnalyzing := false
    error := none
    pollTimer := false }

/-- Embedding of the response handler of `pollPronunciationStatus` in
`usePronunciationAnalysis.js`, mirroring `pollStatus` with the analysis
payload in place of the transcript. -/
def pollPronunciationStatus (s : PronunciationState)
    (resp : Except String StatusResponse) : PronunciationState :=
  match resp with
  | Except.error msg =>
      { s with isAnalyzing := false
               error := jsToOption (jsFieldOr (some msg) (jsGet ERROR_MESSAGES "STATUS_CHECK_FAILED"))
               pollTimer := false }
  | Except.ok r =>
      let s := { s with status := some r.status }
      let s :=
        match r.analysis with
        | some a => { s with analysis := some a }
        | none => s
      if jsStrEq r.status (jsGet STATUS_TYPES "COMPLETED") then
        { s with isAnalyzing := false, pollTimer := false }
      else if jsStrEq r.status (jsGet STATUS_TYPES "FAILED") then
        { s with isAnalyzing := false
                 error := jsToOption (jsFieldOr r.error (jsGet ERROR_MESSAGES "PRONUNCIATION_FAILED"))
                 pollTimer := false }
      else if jsStrEq r.status (jsGet STATUS_TYPES "PROCESSING")
              || jsStrEq r.status (jsGet STATUS_TYPES "QUEUED") then
        { s with pollTimer := true }
      else
        { s with pollTimer := false }

/-- Embedding of `cancelAnalysis`: clears the pending timer and resets
`isAnalyzing` and `status`; `jobId`, `analysis` and `error` are
untouched. -/
def cancelAnalysis (s : PronunciationState) : PronunciationState :=
  { s with pollTimer := false
           isAnalyzing := false
           status := none }

/-- Embedding of `startAnalysis` past the audio-file and
reference-text guards; same shape as `startTranscription`. -/
def startAnalysis (s : PronunciationState) (submit : Except String String) :
    PronunciationState × Bool :=
  let s := { s with jobId := none
                    status := none
                    analysis := none
                    error := none
                    isAnalyzing := true
                    pollTimer := false }
  match submit with
  | Except.ok jobId => ({ s with jobId := some jobId }, true)
  | Except.error msg =>
      ({ s with isAnalyzing := false
                error := jsToOption (jsFieldOr (some msg) (jsGet ERROR_MESSAGES "PRONUNCIATION_FAILED")) },
       false)

/-- One observable event of a transcription poll run: the arrival of a
poll answer (the continuation of a request already in flight) or a
call to `cancelTranscription`. -/
inductive TranscriptionEvent where
  | response (resp : Except String StatusResponse)
  | cancel
deriving Repr

/-- Apply one event to the hook state.  The response handler takes no
cancellation input: the source code has no guard comparing against a
cancellation flag, only the timer handle is cleared by cancel. -/
def stepTranscription (s : TranscriptionState) (e : TranscriptionEvent) :
    TranscriptionState :=
  match e with
  | TranscriptionEvent.response resp => pollStatus s resp
  | TranscriptionEvent.cancel => cancelTranscription s

/-- Run a list of events from a starting state. -/
def runTranscription (s : TranscriptionState) (es : List TranscriptionEvent) :
    TranscriptionState :=
  es.foldl stepTranscription s

/-- An audio blob: raw bytes plus a MIME type string. -/
structure Blob where
  data : List Nat
  type : String
deriving DecidableEq, Repr

/-- A JavaScript `File`: a blob tagged with a filename. -/
structure JSFile where
  blob : Blob
  name : String
deriving DecidableEq, Repr

/-- JavaScript `s.includes(pat)`: `pat` occurs as a contiguous
substring of `s`. -/
def jsIncludes (s pat : String) : Bool :=
  (s.toList.tails.any fun t => List.isPrefixOf pat.toList t)

/-- Embedding of `createFileFromBlob` from the utilities module: the
MIME type defaults to audio/wav when the blob type is empty, the
extension is chosen by the first matching keyword of the if chain, and
the result is a `File` named base plus extension carrying that type. -/
def createFileFromBlob (blob : Blob) (baseName : String) : JSFile :=
  let mimeType := if blob.type = "" then "audio/wav" else blob.type
  let fileExtension :=
    if jsIncludes mimeType "webm" then ".webm"
    else if jsIncludes mimeType "mp4" || jsIncludes mimeType "m4a" then ".m4a"
    else if jsIncludes mimeType "mpeg" || jsIncludes mimeType "mp3" then ".mp3"
    else if jsIncludes mimeType "ogg" then ".ogg"
    else if jsIncludes mimeType "flac" then ".flac"
    else if jsIncludes mimeType "wav" || jsIncludes mimeType "wave" then ".wav"
    else ".wav"
  { blob := { blob with type := mimeType }, name := baseName ++ fileExtension }

/-- An argument to an upload entry point: a blob that may carry a
filename.  `none` embeds a raw `Blob`, whose absent name property reads
as `undefined` (falsy); `some` embeds a `File` with that name. -/
structure UploadArg where
  blob : Blob
  name : Option String
deriving DecidableEq, Repr

/-- The renaming guard shared by the upload paths: a blob with no
name, an empty name, or the literal name blob gets renamed. -/
def needsRecordingName (arg : UploadArg) : Bool :=
  match arg.name with
  | none => true
  | some n => n = "" || n = "blob"

/-- Embedding of the file-preparation prologue of
`apiService.transcribeAudio`: a nameless blob is wrapped into a `File`
called recording plus an extension from the inline MIME chain (a copy
of the chain in `createFileFromBlob`); a named file passes through. -/
def transcribePrepareFile (audioFile : UploadArg) : JSFile :=
  if needsRecordingName audioFile then
    let mimeType := if audioFile.blob.type = "" then "audio/wav" else audioFile.blob.type
    let fileExtension :=
      if jsIncludes mimeType "webm" then ".webm"
      else if jsIncludes mimeType "mp4" || jsIncludes mimeType "m4a" then ".m4a"
      else if jsIncludes mimeType "mpeg" || jsIncludes mimeType "mp3" then ".mp3"
      else if jsIncludes mimeType "ogg" then ".ogg"
      else if jsIncludes mimeType "flac" then ".flac"
      else if jsIncludes mimeType "wav" || jsIncludes mimeType "wave" then ".wav"
      else ".wav"
    { blob := { audioFile.blob with type := mimeType }, name := "recording" ++ fileExtension }
  else
    { blob := audioFile.blob, name := audioFile.name.getD "" }

/-- Embedding of the identical file-preparation prologue of
`apiService.analyzePronunciation`. -/
def analyzePronunciationPrepareFile (audioFile : UploadArg) : JSFile :=
  if needsRecordingName audioFile then
    let mimeType := if audioFile.blob.type = "" then "audio/wav" else audioFile.blob.type
    let fileExtension :=
      if jsIncludes mimeType "webm" then ".webm"
      else if jsIncludes mimeType "mp4" || jsIncludes mimeType "m4a" then ".m4a"
      else if jsIncludes mimeType "mpeg" || jsIncludes mimeType "mp3" then ".mp3"
      else if jsIncludes mimeType "ogg" then ".ogg"
      else if jsIncludes mimeType "flac" then ".flac"
      else if jsIncludes mimeType "wav" || jsIncludes mimeType "wave" then ".wav"
      else ".wav"
    { blob := { audioFile.blob with type := mimeType }, name := "recording" ++ fileExtension }
  else
    { blob := audioFile.blob, name := audioFile.name.getD "" }

/-- Embedding of `apiService.startPronunciationAnalysis`: it names the
recorded blob with a two-way extension choice, webm or wav only, and
hands the resulting `File` to `analyzePronunciation`, whose renaming
guard then leaves the nonempty name alone.  The returned value is the
file actually uploaded. -/
def startPronunciationAnalysisFile (recordedBlob : Blob) : JSFile :=
  let fileExtension := if jsIncludes recordedBlob.type "webm" then ".webm" else ".wav"
  let recordedFile : UploadArg :=
    { blob := recordedBlob, name := some ("recording" ++ fileExtension) }
  analyzePronunciationPrepareFile recordedFile

/-- Modelled from the spec: the extension mapping table of section 6
(webm to .webm, mp4/m4a to .m4a, mpeg/mp3 to .mp3, ogg to .ogg, flac
to .flac, wav/wave to .wav, default .wav), stated once so the several
source copies can be compared against it. -/
def specMimeExtension (mimeType : String) : String :=
  if jsIncludes mimeType "webm" then ".webm"
  else if jsIncludes mimeType "mp4" || jsIncludes mimeType "m4a" then ".m4a"
  else if jsIncludes mimeType "mpeg" || jsIncludes mimeType "mp3" then ".mp3"
  else if jsIncludes mimeType "ogg" then ".ogg"
  else if jsIncludes mimeType "flac" then ".flac"
  else if jsIncludes mimeType "wav" || jsIncludes mimeType "wave" then ".wav"
  else ".wav"

/-- Embedding of `getSupportedMimeType` from the utilities module: the
runtime capability check `MediaRecorder.isTypeSupported` is a
predicate parameter; the loop returns the first supported candidate,
otherwise the fallback (the source also emits a console warning in the
fallback case). -/
def getSupportedMimeType (isTypeSupported : String → Bool) :
    List String → String → String
  | [], fallback => fallback
  | t :: rest, fallback =>
      if isTypeSupported t then t else getSupportedMimeType isTypeSupported rest fallback

/-- The observable state of the `useAudioRecording` hook around a stop
request: whether a recording is active, the finalized blob if any,
whether the media tracks of the stream have been released, and whether
the elapsed-time interval timer is still running. -/
structure RecordingHookState where
  isRecording : Bool
  recordedBlob : Option Blob
  tracksReleased : Bool
  timerActive : Bool
deriving DecidableEq, Repr

/-- Embedding of the `handleStop` callback in `useAudioRecording`:
stores the blob, marks recording over, releases the media tracks via
`audioService.stopMediaStream`, and clears the interval timer. -/
def handleStop (blob : Blob) (s : RecordingHookState) : RecordingHookState :=
  { s with recordedBlob := some blob
           isRecording := false
           tracksReleased := true
           timerActive := false }

/-- The blob built by the `onstop` handler of
`audioService.startRecording`: the accumulated chunks concatenated in
arrival order, tagged with the recorder MIME type. -/
def assembleBlob (chunks : List (List Nat)) (mimeType : String) : Blob :=
  { data := chunks.flatten, type := mimeType }

/-- Embedding of the `onstop` handler of `audioService.startRecording`
composed with `handleStop`.  The handler body is: construct the blob,
then call the stop callback (which performs the track release).  The
`finalize` argument is the outcome of the blob construction; in the
normal run it is `Except.ok (assembleBlob chunks mimeType)`, and
`Except.error` embeds the constructor throwing.  There is no
try/finally around the construction, so on a throw the handler exits
with the state unchanged and the exception is returned alongside. -/
def onstopRun (finalize : Except String Blob) (s : RecordingHookState) :
    RecordingHookState × Option String :=
  match finalize with
  | Except.ok blob => (handleStop blob s, none)
  | Except.error e => (s, some e)

/-- Embedding of the volume assignment in `audioService.playAudioBlob`:
`Math.min(Math.max(options.volume || 0.8, 0), 1)`.  An absent or null
option is `none`; the falsy requested volume 0 also selects the 0.8
default. -/
def playAudioBlobVolume (optionsVolume : Option ℚ) : ℚ :=
  let v : ℚ :=
    match optionsVolume with
    | none => 4/5
    | some x => if x = 0 then 4/5 else x
  min (max v 0) 1

/-- The module state of `chatbotService.js`: the in-memory
`currentSessionId` and the sessionStorage entry chatbot_session_id. -/
structure ChatbotState where
  currentSessionId : Option String
  storage : Option String
deriving DecidableEq, Repr

/-- Embedding of `getOrCreateSessionId`: returns the current id if one
is set, otherwise adopts and stores the freshly generated id (the
`fresh` argument embeds the timestamp-and-random generation). -/
def getOrCreateSessionId (s : ChatbotState) (fresh : String) :
    String × ChatbotState :=
  match s.currentSessionId with
  | some sid => (sid, s)
  | none => (fresh, { currentSessionId := some fresh, storage := some fresh })

/-- Embedding of `setSessionId`. -/
def setSessionId (s : ChatbotState) (sid : String) : ChatbotState :=
  let _ := s
  { currentSessionId := some sid, storage := some sid }

/-- The decoded body of a successful chatbot response as the service
reads it: the answer plus the session_id the server chose to echo. -/
structure ChatResponseData where
  answer : String
  sessionIdField : Option String
deriving DecidableEq, Repr

/-- The outcome of `queryChatbot` on a successful round-trip: the
session id placed in the outgoing request body, the object returned to
the caller, and the module state afterwards. -/
structure ChatQueryResult where
  requestSessionId : String
  answer : String
  sessionIdOut : Option String
  state : ChatbotState
deriving DecidableEq, Repr

/-- The session id placed in the outgoing request body together with
the module state after choosing it: `sessionId || getOrCreateSessionId()`
(a null or empty explicit argument is falsy and falls back to the
stored or freshly created id). -/
def requestSession (s : ChatbotState) (sessionIdArg : Option String)
    (fresh : String) : String × ChatbotState :=
  match sessionIdArg with
  | some sid => if sid = "" then getOrCreateSessionId s fresh else (sid, s)
  | none => getOrCreateSessionId s fresh

/-- Embedding of the success path of `queryChatbot`: the request uses
the explicit argument when truthy, else the stored or freshly created
id; a truthy server-echoed session_id is persisted via `setSessionId`;
the returned object spreads the server data but overwrites session_id
with the id that was sent. -/
def queryChatbot (s : ChatbotState) (sessionIdArg : Option String)
    (fresh : String) (data : ChatResponseData) : ChatQueryResult :=
  { requestSessionId := (requestSession s sessionIdArg fresh).1
    answer := data.answer
    sessionIdOut := some (requestSession s sessionIdArg fresh).1
    state :=
      match data.sessionIdField with
      | some sid =>
          if sid = "" then (requestSession s sessionIdArg fresh).2
          else setSessionId (requestSession s sessionIdArg fresh).2 sid
      | none => (requestSession s sessionIdArg fresh).2 }

/-- A transcription hook state as it looks while a job is being
tracked: processing flag set and a job id present. -/
def processingTState : TranscriptionState :=
  { initTranscriptionState with isProcessing := true, jobId := some "abc" }

/-- A pronunciation hook state as it looks while a job is being
tracked. -/
def processingPState : PronunciationState :=
  { initPronunciationState with isAnalyzing := true, jobId := some "abc" }

/-- A poll response reporting a failed job with an error message. -/
def failedResponse : StatusResponse :=
  { status := "failed", progress := none, transcript := none,
    analysis := none, error := some "boom" }

/-- A poll response reporting a queued job. -/
def queuedResponse : StatusResponse :=
  { status := "queued", progress := none, transcript := none,
    analysis := none, error := none }

/-- A poll response reporting a processing job at 40 percent. -/
def processingResponse : StatusResponse :=
  { status := "processing", progress := some 40, transcript := none,
    analysis := none, error := none }

/-- A poll response reporting a processing job at 80 percent, standing
in for the answer to a request that was in flight at cancellation. -/
def lateResponse : StatusResponse :=
  { status := "processing", progress := some 80, transcript := none,
    analysis := none, error := none }

/-- Claim C1: evaluation of both pollers at the failing input, a poll
response with status failed and error message boom.  The constants
module defines no FAILED key, so the failed branch compares the status
string against `undefined` and is unreachable: polling does stop (no
continuation is scheduled), but the error state stays unset and the
processing flag stays raised, instead of the error message being
exposed verbatim. -/
theorem c1_failed_response_error_not_exposed :
    jsGet STATUS_TYPES "FAILED" = JSValue.undefined
    ∧ (pollStatus processingTState (Except.ok failedResponse)).error = none
    ∧ (pollStatus processingTState (Except.ok failedResponse)).isProcessing = true
    ∧ (pollStatus processingTState (Except.ok failedResponse)).pollTimer = false
    ∧ (pollPronunciationStatus processingPState (Except.ok failedResponse)).error = none
    ∧ (pollPronunciationStatus processingPState (Except.ok failedResponse)).isAnalyzing = true
    ∧ (pollPronunciationStatus processingPState (Except.ok failedResponse)).pollTimer = false := by
  decide

/-- Claim C2: evaluation of both pollers at the failing input, a poll
response with status queued.  The constants module defines no QUEUED
key, so the continuation condition compares the status string against
`undefined`: a queued response schedules no further poll (the job is
left stuck with the processing flag raised), while a processing
response does continue polling. -/
theorem c2_queued_response_stops_polling :
    jsGet STATUS_TYPES "QUEUED" = JSValue.undefined
    ∧ (pollStatus processingTState (Except.ok queuedResponse)).pollTimer = false
    ∧ (pollStatus processingTState (Except.ok queuedResponse)).isProcessing = true
    ∧ (pollStatus processingTState (Except.ok processingResponse)).pollTimer = true
    ∧ (pollPronunciationStatus processingPState (Except.ok queuedResponse)).pollTimer = false
    ∧ (pollPronunciationStatus processingPState (Except.ok processingResponse)).pollTimer = true := by
  decide

/-- Claim C3, counterexample: a concrete run in which a poll request
is in flight when `cancelTranscription` runs and its response then
arrives.  The discarded-claim response is applied by the handler and
the state differs from the post-cancel state (status is resurrected to
processing), so the response is not discarded as claimed. -/
theorem c3_counterexample_late_response_mutates_state :
    stepTranscription
        (runTranscription initTranscriptionState
          [TranscriptionEvent.response (Except.ok processingResponse),
           TranscriptionEvent.cancel])
        (TranscriptionEvent.response (Except.ok lateResponse))
      ≠ runTranscription initTranscriptionState
          [TranscriptionEvent.response (Except.ok processingResponse),
           TranscriptionEvent.cancel] := by
  decide

/-- Claim C3, amended: cancellation clears the pending poll timer, but
a response already in flight is still applied by its handler, which
has no cancellation guard: it overwrites status and progress (and the
pronunciation variant behaves the same way). -/
theorem c3_cancel_clears_timer_but_late_response_applies
    (s : TranscriptionState) (p : PronunciationState) (r : StatusResponse) :
    (cancelTranscription s).pollTimer = false
    ∧ (pollStatus (cancelTranscription s) (Except.ok r)).status = some r.status
    ∧ (pollStatus (cancelTranscription s) (Except.ok r)).progress = r.progress.getD 0
    ∧ (cancelAnalysis p).pollTimer = false
    ∧ (pollPronunciationStatus (cancelAnalysis p) (Except.ok r)).status = some r.status := by
  obtain ⟨st, pr, tr, an, er⟩ := r
  refine ⟨rfl, ?_, ?_, rfl, ?_⟩
  · cases tr <;> unfold pollStatus <;> dsimp only <;> split_ifs <;> rfl
  · cases tr <;> unfold pollStatus <;> dsimp only <;> split_ifs <;> rfl
  · cases an <;> unfold pollPronunciationStatus <;> dsimp only <;> split_ifs <;> rfl

/-- Claim C4, counterexample: immediately after a successful submit
acknowledgment with job id abc, the local status field is not queued
(it is still null; the code never writes a queued status itself). -/
theorem c4_counterexample_status_not_queued_after_submit :
    (startTranscription initTranscriptionState (Except.ok "abc")).1.status
      ≠ some "queued" := by
  decide

/-- Claim C4, amended: immediately after a successful submit response
and before any poll response is applied, the job id is set and the
processing flag is raised, but the local status field is still null
(unset); it only becomes a concrete status string when the first poll
response reports one.  Both hooks behave identically. -/
theorem c4_submit_sets_jobid_but_leaves_status_null
    (s : TranscriptionState) (p : PronunciationState) (jobId : String) :
    (startTranscription s (Except.ok jobId)).1.status = none
    ∧ (startTranscription s (Except.ok jobId)).1.jobId = some jobId
    ∧ (startTranscription s (Except.ok jobId)).1.isProcessing = true
    ∧ (startAnalysis p (Except.ok jobId)).1.status = none
    ∧ (startAnalysis p (Except.ok jobId)).1.jobId = some jobId
    ∧ (startAnalysis p (Except.ok jobId)).1.isAnalyzing = true :=
  ⟨rfl, rfl, rfl, rfl, rfl, rfl⟩

/-- Claim C5, counterexample: with no override supplied, the interval
passed to `setTimeout` is not the documented 2000 milliseconds. -/
theorem c5_counterexample_default_interval_not_2000 :
    effectivePollingInterval none ≠ 2000 := by
  decide

/-- Claim C5, amended: the default polling interval, used when no
pollingInterval override is supplied (or a falsy 0 is supplied), is
the 1000 milliseconds of `DEFAULT_VALUES.pollingInterval`. -/
theorem c5_default_polling_interval_is_1000 :
    effectivePollingInterval none = 1000
    ∧ effectivePollingInterval (some 0) = 1000
    ∧ DEFAULT_VALUES.pollingInterval = 1000 :=
  ⟨rfl, rfl, rfl⟩

/-- A recording hook state at the moment the stop event fires: the
recording is active, the stream tracks are held, and the elapsed-time
timer is running. -/
def preStopState : RecordingHookState :=
  { isRecording := true
    recordedBlob := none
    tracksReleased := false
    timerActive := true }

/-- Claim C6, counterexample: when blob finalization throws, the stop
handler exits before the stop callback runs, so the media tracks are
not released (the whole observable state is unchanged and the
exception escapes). -/
theorem c6_counterexample_throwing_finalize_skips_release :
    (onstopRun (Except.error "Failed to construct Blob") preStopState).1.tracksReleased
        = false
    ∧ (onstopRun (Except.error "Failed to construct Blob") preStopState).1
        = preStopState := by
  decide

/-- Claim C6, amended: the media tracks are released exactly when blob
finalization succeeds: on a successful finalization the stop callback
stores the blob, releases the tracks and clears the timer, while a
throwing finalization leaves the state unchanged, tracks still held.
There is no try/finally protecting the release. -/
theorem c6_release_happens_iff_finalize_succeeds
    (s : RecordingHookState) (b : Blob) (e : String) :
    (onstopRun (Except.ok b) s).1.tracksReleased = true
    ∧ (onstopRun (Except.ok b) s).1.isRecording = false
    ∧ (onstopRun (Except.ok b) s).1.timerActive = false
    ∧ (onstopRun (Except.ok b) s).1.recordedBlob = some b
    ∧ (onstopRun (Except.error e) s).1 = s :=
  ⟨rfl, rfl, rfl, rfl, rfl⟩

/-- An audio blob whose MIME type is ogg, recorded for the C7
counterexample. -/
def oggBlob : Blob := { data := [1, 2, 3], type := "audio/ogg" }

/-- Claim C7, counterexample: an ogg blob uploaded through
`startPronunciationAnalysis` is named recording.wav, not the
recording.ogg that the claimed mapping table assigns to ogg. -/
theorem c7_counterexample_ogg_named_wav :
    (startPronunciationAnalysisFile oggBlob).name = "recording.wav"
    ∧ (startPronunciationAnalysisFile oggBlob).name
        ≠ "recording" ++ specMimeExtension "audio/ogg" := by
  decide

/-- Claim C7, amended: `transcribeAudio`, `analyzePronunciation` and
`createFileFromBlob` all derive the attached extension for a nameless
blob from the full MIME mapping table (webm, mp4/m4a, mpeg/mp3, ogg,
flac, wav/wave, default wav), but `startPronunciationAnalysis` uses a
reduced two-way mapping, webm or wav, so non-webm types other than wav
are uploaded with a .wav name on that path. -/
theorem c7_upload_paths_extension_mapping (d : List Nat) (t : String) :
    (transcribePrepareFile { blob := { data := d, type := t }, name := none }).name
        = "recording" ++ specMimeExtension t
    ∧ (analyzePronunciationPrepareFile { blob := { data := d, type := t }, name := none }).name
        = "recording" ++ specMimeExtension t
    ∧ (createFileFromBlob { data := d, type := t } "recording").name
        = "recording" ++ specMimeExtension t
    ∧ (startPronunciationAnalysisFile { data := d, type := t }).name
        = "recording" ++ (if jsIncludes t "webm" then ".webm" else ".wav") := by
  refine ⟨?_, ?_, ?_, ?_⟩
  · by_cases h : t = ""
    · subst h; rfl
    · simp [transcribePrepareFile, needsRecordingName, specMimeExtension, h]
  · by_cases h : t = ""
    · subst h; rfl
    · simp [analyzePronunciationPrepareFile, needsRecordingName, specMimeExtension, h]
  · by_cases h : t = ""
    · subst h; rfl
    · simp [createFileFromBlob, specMimeExtension, h]
  · unfold startPronunciationAnalysisFile
    dsimp only
    cases hw : jsIncludes t "webm" <;> rfl

/-- Claim C8: `getSupportedMimeType` returns the first candidate the
capability check reports as supported, and the fallback when the check
accepts none of them; `List.find?` captures exactly the first match of
the probe order. -/
theorem c8_getSupportedMimeType_first_supported
    (isTypeSupported : String → Bool) (mimeTypes : List String) (fallback : String) :
    getSupportedMimeType isTypeSupported mimeTypes fallback
      = (mimeTypes.find? isTypeSupported).getD fallback := by
  induction mimeTypes with
  | nil => rfl
  | cons t rest ih =>
      rw [getSupportedMimeType, List.find?]
      cases h : isTypeSupported t
      · simp [h, ih]
      · simp [h]

/-- Claim C9: the volume assigned to the audio element in
`playAudioBlob` is always clamped into the closed interval from 0 to
1, and an absent, null or zero requested volume yields the default
0.8 (the falsy zero is not honored). -/
theorem c9_playAudioBlobVolume_clamped_with_default (v : Option ℚ) :
    0 ≤ playAudioBlobVolume v
    ∧ playAudioBlobVolume v ≤ 1
    ∧ playAudioBlobVolume none = 4/5
    ∧ playAudioBlobVolume (some 0) = 4/5 := by
  have hmax : max ((4:ℚ)/5) 0 = 4/5 := max_eq_left (by norm_num)
  have hmin : min ((4:ℚ)/5) 1 = 4/5 := min_eq_left (by norm_num)
  refine ⟨?_, ?_, ?_, ?_⟩
  · exact le_min (le_max_right _ _) zero_le_one
  · exact min_le_right _ _
  · show min (max ((4:ℚ)/5) 0) 1 = 4/5
    rw [hmax, hmin]
  · show min (max (if (0:ℚ) = 0 then (4:ℚ)/5 else 0) 0) 1 = 4/5
    rw [if_pos rfl, hmax, hmin]

/-- Claim C10: on a successful chatbot round-trip the returned object
carries the session id that was sent in the request body, even when
the server echoes a different one; a truthy server-echoed id is
nevertheless persisted (module variable and sessionStorage) and is the
id a subsequent request with no explicit argument will use. -/
theorem c10_queryChatbot_echoes_request_session
    (s : ChatbotState) (sessionIdArg : Option String) (fresh : String)
    (data : ChatResponseData) :
    (queryChatbot s sessionIdArg fresh data).sessionIdOut
        = some (queryChatbot s sessionIdArg fresh data).requestSessionId
    ∧ ∀ sid, data.sessionIdField = some sid → sid ≠ "" →
        (queryChatbot s sessionIdArg fresh data).state.currentSessionId = some sid
        ∧ (queryChatbot s sessionIdArg fresh data).state.storage = some sid
        ∧ ∀ fresh2 data2,
            (queryChatbot (queryChatbot s sessionIdArg fresh data).state
              none fresh2 data2).requestSessionId = sid := by
  refine ⟨rfl, ?_⟩
  intro sid hfield hne
  have hstate : (queryChatbot s sessionIdArg fresh data).state
      = { currentSessionId := some sid, storage := some sid } := by
    simp [queryChatbot, hfield, hne, setSessionId]
  refine ⟨?_, ?_, ?_⟩
  · rw [hstate]
  · rw [hstate]
  · intro fresh2 data2
    rw [hstate]
    rfl

/-- A chatbot module state that already stored the id session_a. -/
def chatState0 : ChatbotState :=
  { currentSessionId := some "session_a", storage := some "session_a" }

/-- A chatbot response whose server-echoed session id session_b
differs from the stored one. -/
def chatData0 : ChatResponseData :=
  { answer := "use the past tense here", sessionIdField := some "session_b" }

/-- Claim C10, witness: at a concrete input where the server echoes
the different id session_b, the returned object still carries the
request id session_a, while session_b is persisted and used by the
next request. -/
theorem c10_witness :
    (queryChatbot chatState0 none "session_fresh" chatData0).sessionIdOut
        = some (queryChatbot chatState0 none "session_fresh" chatData0).requestSessionId
    ∧ (queryChatbot chatState0 none "session_fresh" chatData0).requestSessionId
        = "session_a"
    ∧ (queryChatbot chatState0 none "session_fresh" chatData0).state.currentSessionId
        = some "session_b"
    ∧ (queryChatbot (queryChatbot chatState0 none "session_fresh" chatData0).state
          none "session_fresh2" chatData0).requestSessionId
        = "session_b" := by
  have h := c10_queryChatbot_echoes_request_session chatState0 none "session_fresh" chatData0
  have h2 := h.2 "session_b" rfl (by decide)
  exact ⟨h.1, rfl, h2.1, h2.2.2 "session_fresh2" chatData0⟩
